import Mathlib

/-!
# Verification of the SUSP backend core (nearest-unit resolution)

Shallow embedding of the core of `susp-backend`:

* data model from `src/models/tables.py` and `src/models/helpers.py`,
* the query layer `src/utils/queries.py`
  (`get_near_unit_list`, `get_all_services`, `get_unit`),
* the helpers `src/utils/helpers.py` (`get_distance`, `get_coord_from_cep`),
* the configuration constant `config/settings.py` (`MAX_UNITIES`).

A database session is embedded as a fixed snapshot of the three tables
(lists of rows, in the order the query layer would return them).
SQLAlchemy `query(...).filter(...).all()` becomes `List.filter`,
`query(...).filter(...).first()` becomes `List.find?`.
Numeric columns (`Float` / `Decimal`) are embedded as `ℚ`; a nullable
numeric column becomes `Option ℚ`.  Nullable text columns are embedded as
plain `String`: no verified property depends on a text column being NULL.
Python exceptions (`HTTPException`, bare `Exception`) become an
`Except ApiError` result.
-/

namespace Susp

/-- Embeds `Coordinate` from `src/models/helpers.py`: a (lat, lng) pair of decimals
(pydantic `Decimal`, embedded as `ℚ`). -/
structure Coordinate where
  lat : ℚ
  lng : ℚ
deriving DecidableEq, Repr

/-- Embeds `GeneralInfo` from `src/models/tables.py`: one establishment row.
`latitude` and `longitude` are nullable `Float` columns, hence `Option ℚ`. -/
structure GeneralInfo where
  cnes : Int
  name : String
  city : String
  state : String
  kind : String
  cep : String
  cnpj : String
  address : String
  number : String
  district : String
  telephone : String
  latitude : Option ℚ
  longitude : Option ℚ
  email : String
  shift : String
deriving DecidableEq, Repr

/-- Embeds `MedicalService` from `src/models/tables.py`: one catalog row, keyed by
the composite `(id, class_id)`. -/
structure MedicalService where
  id : Int
  class_id : Int
  service : String
  classification : String
deriving DecidableEq, Repr

/-- Embeds `ServiceRecord` from `src/models/tables.py`: one offering row. -/
structure ServiceRecord where
  id : Int
  cnes : Int
  service : Int
  classification : Int
deriving DecidableEq, Repr

/-- Embeds `UnitRequest` from `src/models/endpoints.py`: the `/unidades` request. -/
structure UnitRequest where
  cep : String
  srv : Int
  clf : Int
deriving DecidableEq, Repr

/-- Embeds `UnitItem` from `src/models/endpoints.py`: one entry of the
`/unidades` response. -/
structure UnitItem where
  cnes : Int
  name : String
  address : String
  type : String
  distance : ℚ
deriving DecidableEq, Repr

/-- A fixed snapshot of the three tables, standing for the database session
passed to the query functions.  Row order is the order the corresponding
`.all()` query returns rows. -/
structure Session where
  generalInfos : List GeneralInfo
  serviceRecords : List ServiceRecord
  medicalServices : List MedicalService
deriving DecidableEq, Repr

/-- Embeds `MAX_UNITIES` from `config/settings.py`. -/
def MAX_UNITIES : Nat := 20

/-! ## Distance function (`get_distance` in `src/utils/helpers.py`)

`get_distance` delegates the numeric work to `geopy.distance.geodesic`,
an external library whose code is not part of this repository.  The kernel
below is therefore modelled from the spec.  -/

/-- Modelled from the spec: truncated Maclaurin series standing for `sin`
(odd polynomial), used by the great-circle kernel. -/
def sinApprox (x : ℚ) : ℚ := x - x ^ 3 / 6 + x ^ 5 / 120

/-- Modelled from the spec: truncated Maclaurin series standing for `cos`
(even polynomial), used by the great-circle kernel. -/
def cosApprox (x : ℚ) : ℚ := 1 - x ^ 2 / 2 + x ^ 4 / 24

/-- Modelled from the spec: truncated Maclaurin series standing for
`arcsin`; fixes `asinApprox 0 = 0`. -/
def asinApprox (x : ℚ) : ℚ := x + x ^ 3 / 6

/-- Degrees to radians with a rational approximation of pi. -/
def degToRad (d : ℚ) : ℚ := d * (355 / 113) / 180

/-- Mean Earth radius in kilometers. -/
def EARTH_RADIUS_KM : ℚ := 6371

/-- One Newton iteration for the square root of `h`. -/
def newtonStep (x h : ℚ) : ℚ := (x + h / x) / 2

/-- Rational square-root approximation (three Newton iterations);
exact at `0`. -/
def sqrtApprox (h : ℚ) : ℚ :=
  if h = 0 then 0
  else newtonStep (newtonStep (newtonStep ((1 + h) / 2) h) h) h

/-- Modelled from the spec: the haversine term
`sin²(Δφ/2) + cos φ₁ · cos φ₂ · sin²(Δλ/2)` of the great-circle distance
formula, over the series approximations above. -/
def haversineTerm (a b : Coordinate) : ℚ :=
  let f1 := degToRad a.lat
  let f2 := degToRad b.lat
  (sinApprox ((f2 - f1) / 2)) ^ 2 +
    cosApprox f1 * cosApprox f2 *
      (sinApprox ((degToRad b.lng - degToRad a.lng) / 2)) ^ 2

/-- Modelled from the spec: `geopy.distance.geodesic(...).kilometers`,
the great-circle distance in kilometers — the code of `geopy` is not part
of this repository, so the spec's great-circle contract is embedded as the
haversine formula over the rational approximations above. -/
def geodesic_kilometers (a b : Coordinate) : ℚ :=
  2 * EARTH_RADIUS_KM * asinApprox (sqrtApprox (haversineTerm a b))

/-- Embeds `get_distance` from `src/utils/helpers.py`: distance in kilometers
between two coordinates, delegated to the geodesic kernel.  A pure
function of its two arguments (the Python code only adds a debug log). -/
def get_distance (origin destination : Coordinate) : ℚ :=
  geodesic_kilometers origin destination

/-! ## Nearest-unit resolver (`get_near_unit_list` in `src/utils/queries.py`) -/

/-- One iteration of the `for record in service_records` loop of
`get_near_unit_list`: look the establishment up by `record.cnes`
(`.first()`), skip the record when no row is found (the loop only prints a
message) or when `not unit.latitude or not unit.longitude` — in Python a
nullable float column is falsy when it is `None` *or* `0.0` — and
otherwise build the `UnitItem` appended by the loop. -/
def recordToItem (session : Session) (origin : Coordinate)
    (record : ServiceRecord) : Option UnitItem :=
  match session.generalInfos.find? (fun u => u.cnes == record.cnes) with
  | none => none
  | some unit =>
    match unit.latitude, unit.longitude with
    | some lat, some lng =>
      if lat == 0 || lng == 0 then none
      else
        some { cnes := unit.cnes
               name := unit.name
               address := unit.address ++ ", " ++ unit.number ++ ", " ++
                 unit.district
               type := unit.kind
               distance := get_distance origin { lat := lat, lng := lng } }
    | _, _ => none

/-- The whole `for` loop of `get_near_unit_list`: fold over the matching
service records, appending the surviving items to the accumulator
`unit_list`. -/
def processRecords (session : Session) (origin : Coordinate) :
    List ServiceRecord → List UnitItem → List UnitItem
  | [], acc => acc
  | record :: rest, acc =>
    match recordToItem session origin record with
    | some item => processRecords session origin rest (acc ++ [item])
    | none => processRecords session origin rest acc

/-- The `unit_list` built by `get_near_unit_list` before sorting: the loop
above run over the records matching
`ServiceRecord.service == params.srv, ServiceRecord.classification ==
params.clf` (the `.all()` query), starting from the empty list. -/
def collectUnits (session : Session) (params : UnitRequest)
    (origin : Coordinate) : List UnitItem :=
  processRecords session origin
    (session.serviceRecords.filter
      (fun r => r.service == params.srv && r.classification == params.clf))
    []

/-- The sort key of `sorted(unit_list, key=lambda x: x.distance)`. -/
def byDistance (a b : UnitItem) : Prop := a.distance ≤ b.distance

instance : DecidableRel byDistance :=
  fun a b => inferInstanceAs (Decidable (a.distance ≤ b.distance))

instance : IsTotal UnitItem byDistance :=
  ⟨fun a b => le_total a.distance b.distance⟩

instance : IsTrans UnitItem byDistance :=
  ⟨fun _ _ _ h h2 => le_trans h h2⟩

/-- Embeds `get_near_unit_list` from `src/utils/queries.py`: filter the service
records on the exact `(srv, clf)` pair, build one item per surviving
record, then `sorted(unit_list, key=lambda x: x.distance)[:MAX_UNITIES]`.
Python's `sorted` is a *stable* sort; it is embedded as insertion sort,
which is stable, and stable sorting by a key is unique
(`stable_sorted_unique` below), so any stable sort gives this exact
list. -/
def get_near_unit_list (session : Session) (params : UnitRequest)
    (origin : Coordinate) : List UnitItem :=
  (List.insertionSort byDistance (collectUnits session params origin)).take
    MAX_UNITIES

/-- Predicate: `l'` is a stable sort of `l` by distance — the spec's description of
the sorted result: sorted, and ties keep the original order (the sublist
at every key value is preserved). -/
def IsStableSortedBy (l l' : List UnitItem) : Prop :=
  l'.Sorted byDistance ∧
    ∀ k : ℚ, l'.filter (fun x => x.distance == k) =
      l.filter (fun x => x.distance == k)

/-! ## Detail aggregator (`get_all_services` in `src/utils/queries.py`) -/

/-- The Python `services_dict` (an insertion-ordered `dict`) embedded as an
association list.  `dictAppend d k v` is
`if k not in d: d[k] = []` followed by `d[k].append(v)`: it appends `v` to
the list of an existing key in place, or adds the key at the end. -/
def dictAppend (d : List (String × List String)) (k : String) (v : String) :
    List (String × List String) :=
  match d with
  | [] => [(k, [v])]
  | (k0, vs) :: rest =>
    if k0 = k then (k0, vs ++ [v]) :: rest
    else (k0, vs) :: dictAppend rest k v

/-- The catalog lookup inside the `get_all_services` loop:
`query(MedicalService).filter(id == service, class_id ==
classification).first()`. -/
def resolveRecord (session : Session) (unit_service : ServiceRecord) :
    Option MedicalService :=
  session.medicalServices.find?
    (fun m => m.id == unit_service.service &&
      m.class_id == unit_service.classification)

/-- The `for unit_service in unit_services` loop of `get_all_services`:
skip a record whose catalog entry is missing (only a warning is logged),
otherwise group the classification name under the service name. -/
def buildServicesDict (session : Session) :
    List ServiceRecord → List (String × List String) →
      List (String × List String)
  | [], d => d
  | unit_service :: rest, d =>
    match resolveRecord session unit_service with
    | none => buildServicesDict session rest d
    | some services =>
      buildServicesDict session rest
        (dictAppend d services.service services.classification)

/-- Embeds `get_all_services` from `src/utils/queries.py`: group the resolved
classification names of the establishment's service records under their
service names, starting from the empty dict. -/
def get_all_services (session : Session) (cnes : Int) :
    List (String × List String) :=
  buildServicesDict session
    (session.serviceRecords.filter (fun r => r.cnes == cnes)) []

/-- Python `d[k]` read access on the embedded dict (`none` when the key is
absent). -/
def lookupKey (d : List (String × List String)) (k : String) :
    Option (List String) :=
  (d.find? (fun e => e.1 == k)).map (fun e => e.2)

/-- The classification names, in record order, of the resolved records of
establishment `cnes` whose catalog entry carries service name `name` —
the list the spec says must appear under `name` in the grouping. -/
def classificationsFor (session : Session) (cnes : Int) (name : String) :
    List String :=
  ((((session.serviceRecords.filter (fun r => r.cnes == cnes)).filterMap
    (resolveRecord session)).filter (fun m => m.service == name)).map
      (fun m => m.classification))

/-! ## Errors, `get_unit` and `get_coord_from_cep` -/

/-- The two kinds of failure raised by the helpers: FastAPI
`HTTPException(status_code, detail)` and a bare Python `Exception(msg)`. -/
inductive ApiError where
  | httpException (status_code : Nat) (detail : String)
  | genericError (message : String)
deriving DecidableEq, Repr

/-- Embeds `get_unit` from `src/utils/queries.py`: `.first()` on
`GeneralInfo.cnes == cnes`; when no row is returned (`first()` gives
`None`, which is not a `GeneralInfo` instance) raise
`HTTPException(404, "Unidade não encontrada")`. -/
def get_unit (session : Session) (cnes : Int) :
    Except ApiError GeneralInfo :=
  match session.generalInfos.find? (fun u => u.cnes == cnes) with
  | some unit => .ok unit
  | none => .error (.httpException 404 "Unidade não encontrada")

/-- The upstream AwesomeAPI reply to the postal-code query, as
`get_coord_from_cep` consumes it: the HTTP status code, and the `lat` /
`lng` fields of the JSON body after decimal parsing — `none` when the
field is absent or does not validate as a pydantic `Decimal`
(`Coordinate(lat=None)` raises `ValidationError`). -/
structure CepResponse where
  status_code : Nat
  lat : Option ℚ
  lng : Option ℚ
deriving DecidableEq, Repr

/-- Embeds `get_coord_from_cep` from `src/utils/helpers.py`: a non-200 status is
an error — 404 becomes `HTTPException(404, "CEP não encontrado ou
inválido")`, anything else the generic `Exception("Erro ao consultar
CEP")`; on a 200 reply, a body that does not validate as a `Coordinate`
becomes the generic `Exception("Erro ao validar resposta da API")`. -/
def get_coord_from_cep (response : CepResponse) : Except ApiError Coordinate :=
  if response.status_code ≠ 200 then
    if response.status_code == 404 then
      .error (.httpException 404 "CEP não encontrado ou inválido")
    else .error (.genericError "Erro ao consultar CEP")
  else
    match response.lat, response.lng with
    | some lat, some lng => .ok { lat := lat, lng := lng }
    | _, _ => .error (.genericError "Erro ao validar resposta da API")

/-- Modelled from the spec: the current `/unidades` endpoint body.  The
`app.py` revision under `src/` predates the query-layer refactor (the
tests patch `src.app.get_coord_from_cep` and `src.app.get_near_unit_list`,
which that revision does not define), so the wrapper is modelled from the
spec: geocode the postal code, then resolve the nearest units; a geocoding
failure propagates unmodified and no partial list is returned. -/
def unidades (response : CepResponse) (session : Session)
    (params : UnitRequest) : Except ApiError (List UnitItem) :=
  match get_coord_from_cep response with
  | .error e => .error e
  | .ok origin => .ok (get_near_unit_list session params origin)

/-- Modelled from the spec: the current `/unidades/detalhes` endpoint body
(same missing revision as `unidades`): fetch the establishment with
`get_unit` — a `NotFound` propagates unmodified — and pair it with the
aggregated services. -/
def detalhes (session : Session) (cnes : Int) :
    Except ApiError (GeneralInfo × List (String × List String)) :=
  match get_unit session cnes with
  | .error e => .error e
  | .ok unit => .ok (unit, get_all_services session cnes)

/-! ## Concrete rows used by the witnesses -/

/-- A concrete establishment with coordinates (37, 10). -/
def wUnitA : GeneralInfo :=
  { cnes := 1, name := "A", city := "Sao Paulo", state := "SP"
    kind := "HOSPITAL", cep := "01000-000", cnpj := "00"
    address := "Rua A", number := "10", district := "Centro"
    telephone := "11", latitude := some 37, longitude := some 10
    email := "a@x", shift := "Integral" }

/-- A second establishment at the same coordinates (a distance tie). -/
def wUnitB : GeneralInfo :=
  { cnes := 2, name := "B", city := "Sao Paulo", state := "SP"
    kind := "UPA", cep := "02000-000", cnpj := "01"
    address := "Rua B", number := "20", district := "Sul"
    telephone := "12", latitude := some 37, longitude := some 10
    email := "b@x", shift := "Diurno" }

/-- An establishment with a NULL latitude. -/
def wUnitNull : GeneralInfo :=
  { cnes := 3, name := "N", city := "Sao Paulo", state := "SP"
    kind := "UBS", cep := "03000-000", cnpj := "02"
    address := "Rua N", number := "30", district := "Norte"
    telephone := "13", latitude := none, longitude := some 10
    email := "n@x", shift := "Diurno" }

/-- An establishment whose latitude is exactly 0.0 (falsy in Python). -/
def wUnitZero : GeneralInfo :=
  { cnes := 4, name := "Z", city := "Sao Paulo", state := "SP"
    kind := "UBS", cep := "04000-000", cnpj := "03"
    address := "Rua Z", number := "40", district := "Leste"
    telephone := "14", latitude := some 0, longitude := some 10
    email := "z@x", shift := "Diurno" }

/-- A service record offering service (1, 1) at establishment `cnes`. -/
def wRec (cnes : Int) : ServiceRecord :=
  { id := cnes, cnes := cnes, service := 1, classification := 1 }

/-- The request used by the witnesses: service (1, 1). -/
def wParams : UnitRequest := { cep := "01310-100", srv := 1, clf := 1 }

/-- The origin used by the witnesses. -/
def wOrigin : Coordinate := { lat := 37, lng := 10 }

/-- Snapshot with two tied establishments offering the requested pair. -/
def wSessionC1 : Session :=
  { generalInfos := [wUnitA, wUnitB]
    serviceRecords := [wRec 1, wRec 2]
    medicalServices := [] }

/-- The item the resolver builds for `wUnitA`. -/
def wItemA : UnitItem :=
  { cnes := 1, name := "A"
    address := "Rua A" ++ ", " ++ "10" ++ ", " ++ "Centro"
    type := "HOSPITAL"
    distance := get_distance wOrigin { lat := 37, lng := 10 } }

/-- The item the resolver builds for `wUnitB`. -/
def wItemB : UnitItem :=
  { cnes := 2, name := "B"
    address := "Rua B" ++ ", " ++ "20" ++ ", " ++ "Sul"
    type := "UPA"
    distance := get_distance wOrigin { lat := 37, lng := 10 } }

/-- Snapshot where the only matching establishments lack coordinates. -/
def wSessionC2 : Session :=
  { generalInfos := [wUnitNull]
    serviceRecords := [wRec 3]
    medicalServices := [] }

/-- Snapshot with a NULL-latitude establishment and a normal one, both
offering the requested pair. -/
def wSessionC2b : Session :=
  { generalInfos := [wUnitNull, wUnitA]
    serviceRecords := [wRec 3, wRec 1]
    medicalServices := [] }

/-- Snapshot with a record whose establishment does not exist (cnes 99). -/
def wSessionC3 : Session :=
  { generalInfos := [wUnitA]
    serviceRecords := [wRec 1, wRec 99]
    medicalServices := [] }

/-- Snapshot with a zero-coordinate establishment and a normal one. -/
def wSessionC10 : Session :=
  { generalInfos := [wUnitZero, wUnitA]
    serviceRecords := [wRec 4, wRec 1]
    medicalServices := [] }

/-- A concrete catalog row for service (1, 1). -/
def wCat11 : MedicalService :=
  { id := 1, class_id := 1, service := "AMBULATORIAL"
    classification := "CLINICAS BASICAS" }

/-- A record of establishment 1 whose (9, 9) pair is not in the catalog. -/
def wRecDanglingCat : ServiceRecord :=
  { id := 7, cnes := 1, service := 9, classification := 9 }

/-- Snapshot for the aggregator witnesses: establishment 1 has one record
with a catalog entry and one dangling record (service (9, 9) is not in the
catalog). -/
def wSessionC6 : Session :=
  { generalInfos := [wUnitA]
    serviceRecords := [wRec 1, wRecDanglingCat]
    medicalServices := [wCat11] }

/-- A 404 reply from the postal-code resolver. -/
def wResp404 : CepResponse := { status_code := 404, lat := none, lng := none }

/-! # Theorems -/

/-! ## Distance function -/

lemma haversineTerm_comm (a b : Coordinate) :
    haversineTerm a b = haversineTerm b a := by
  simp only [haversineTerm, sinApprox, cosApprox, degToRad]
  ring

lemma haversineTerm_self (a : Coordinate) : haversineTerm a a = 0 := by
  simp only [haversineTerm, sinApprox, cosApprox, degToRad]
  ring

lemma get_distance_self (a : Coordinate) : get_distance a a = 0 := by
  simp [get_distance, geodesic_kilometers, haversineTerm_self, sqrtApprox,
    asinApprox]

lemma get_distance_comm (a b : Coordinate) :
    get_distance a b = get_distance b a := by
  simp [get_distance, geodesic_kilometers, haversineTerm_comm a b]

/-- C5: for every valid coordinate `a`, `distance(a, a) = 0`, and for every
pair of coordinates `a`, `b`, `distance(a, b) = distance(b, a)`; the
function is a pure function of its arguments, so the result does not
depend on argument order in any hidden way. -/
theorem distance_zero_self_and_symm (a b : Coordinate) :
    get_distance a a = 0 ∧ get_distance a b = get_distance b a :=
  ⟨get_distance_self a, get_distance_comm a b⟩

/-! ## Stable sorting is unique

Python's `sorted` is specified to be stable.  `IsStableSortedBy` is the
spec's description of the sorted list; any two lists satisfying it for the
same input are equal, so the embedding via insertion sort loses no
generality. -/

lemma filter_orderedInsert (k : ℚ) (a : UnitItem) (l : List UnitItem) :
    (List.orderedInsert byDistance a l).filter (fun x => x.distance == k) =
      if a.distance = k then
        a :: l.filter (fun x => x.distance == k)
      else l.filter (fun x => x.distance == k) := by
  induction l with
  | nil =>
    by_cases h : a.distance = k <;>
      simp [List.orderedInsert, List.filter_cons, h]
  | cons b t ih =>
    by_cases hab : byDistance a b
    · rw [List.orderedInsert, if_pos hab]
      by_cases h : a.distance = k <;>
        simp [List.filter_cons, h]
    · rw [List.orderedInsert, if_neg hab]
      have hba : b.distance < a.distance := by
        simpa [byDistance, not_le] using hab
      by_cases h : a.distance = k
      · have hb : ¬ b.distance = k := fun hbk => by
          rw [h] at hba; rw [hbk] at hba; exact lt_irrefl k hba
        simp [List.filter_cons, h, hb, ih]
      · simp [List.filter_cons, h, ih]

lemma filter_insertionSort (k : ℚ) (l : List UnitItem) :
    (List.insertionSort byDistance l).filter (fun x => x.distance == k) =
      l.filter (fun x => x.distance == k) := by
  induction l with
  | nil => rfl
  | cons a t ih =>
    rw [List.insertionSort, filter_orderedInsert]
    by_cases h : a.distance = k <;> simp [List.filter_cons, h, ih]

lemma eq_of_sorted_of_filter_eq (l₁ : List UnitItem) :
    ∀ l₂ : List UnitItem, l₁.Sorted byDistance → l₂.Sorted byDistance →
      (∀ k : ℚ, l₁.filter (fun x => x.distance == k) =
        l₂.filter (fun x => x.distance == k)) → l₁ = l₂ := by
  induction l₁ with
  | nil =>
    intro l₂ _ _ h
    cases l₂ with
    | nil => rfl
    | cons b t₂ =>
      have hb := h b.distance
      simp [List.filter_cons] at hb
  | cons a t₁ ih =>
    intro l₂ h₁ h₂ h
    cases l₂ with
    | nil =>
      have ha := h a.distance
      simp [List.filter_cons] at ha
    | cons b t₂ =>
      have hmem₁ : ∀ x ∈ t₁, byDistance a x := List.rel_of_sorted_cons h₁
      have hmem₂ : ∀ x ∈ t₂, byDistance b x := List.rel_of_sorted_cons h₂
      have hd : a.distance = b.distance := by
        by_contra hne
        have ha := h a.distance
        have haR : a ∈ (b :: t₂).filter (fun x => x.distance == a.distance) := by
          rw [← ha]
          simp [List.filter_cons]
        have hb := h b.distance
        have hbL : b ∈ (a :: t₁).filter (fun x => x.distance == b.distance) := by
          rw [hb]
          simp [List.filter_cons]
        have hba : b.distance ≤ a.distance := by
          rcases List.mem_cons.mp (List.mem_of_mem_filter haR) with heq | hmem
          · exact absurd (congrArg UnitItem.distance heq) hne
          · exact hmem₂ a hmem
        have hab : a.distance ≤ b.distance := by
          rcases List.mem_cons.mp (List.mem_of_mem_filter hbL) with heq | hmem
          · exact absurd (congrArg UnitItem.distance heq) fun e => hne e.symm
          · exact hmem₁ b hmem
        exact hne (le_antisymm hab hba)
      have hka := h a.distance
      rw [List.filter_cons, List.filter_cons] at hka
      simp only [← hd, beq_self_eq_true, if_pos, List.cons.injEq] at hka
      obtain ⟨hhead, htail⟩ := hka
      have hfilters : ∀ k : ℚ, t₁.filter (fun x => x.distance == k) =
          t₂.filter (fun x => x.distance == k) := by
        intro k
        by_cases hk : a.distance = k
        · rw [← hk]; exact htail
        · have hbk : ¬ b.distance = k := fun e => hk (hd.trans e)
          have hkk := h k
          simp only [List.filter_cons] at hkk
          simpa [hk, hbk] using hkk
      rw [hhead, ih t₂ h₁.of_cons h₂.of_cons hfilters]

lemma stable_sorted_unique {l l' : List UnitItem}
    (h : IsStableSortedBy l l') : l' = List.insertionSort byDistance l :=
  eq_of_sorted_of_filter_eq l' (List.insertionSort byDistance l) h.1
    (List.sorted_insertionSort byDistance l)
    (fun k => (h.2 k).trans (filter_insertionSort k l).symm)

/-- C1: for every request and fixed snapshot, `get_near_unit_list` returns
the surviving result items sorted non-decreasingly by computed distance,
stably (ties keep query order: the sublist at every distance value is
preserved), truncated to the first `MAX_UNITIES = 20` elements; in
particular the output never has more than `MAX_UNITIES` entries. -/
theorem nearUnits_sorted_stable_truncated (session : Session)
    (params : UnitRequest) (origin : Coordinate) :
    (get_near_unit_list session params origin).length ≤ MAX_UNITIES ∧
      (get_near_unit_list session params origin).Sorted byDistance ∧
      ∀ l', IsStableSortedBy (collectUnits session params origin) l' →
        get_near_unit_list session params origin = l'.take MAX_UNITIES := by
  refine ⟨List.length_take_le _ _, ?_, ?_⟩
  · exact List.Pairwise.sublist (List.take_sublist _ _)
      (List.sorted_insertionSort byDistance _)
  · intro l' hl'
    rw [get_near_unit_list, stable_sorted_unique hl']

/-- Witness for C1: on a concrete snapshot with two establishments tied at
the same distance, the resolver output is the stable sort of the survivors
(here: the survivors themselves, in query order) truncated to
`MAX_UNITIES`. -/
theorem nearUnits_sorted_stable_truncated_witness :
    get_near_unit_list wSessionC1 wParams wOrigin =
      (collectUnits wSessionC1 wParams wOrigin).take MAX_UNITIES := by
  have hcollect : collectUnits wSessionC1 wParams wOrigin =
      [wItemA, wItemB] := rfl
  refine (nearUnits_sorted_stable_truncated wSessionC1 wParams wOrigin).2.2
    (collectUnits wSessionC1 wParams wOrigin) ⟨?_, fun k => rfl⟩
  rw [hcollect]
  refine List.sorted_cons.mpr ⟨?_, List.sorted_singleton _⟩
  intro b hb
  rw [List.mem_singleton.mp hb]
  exact le_refl wItemA.distance

/-! ## Resolver loop: membership, skipping, per-record items -/

/-- The accumulating loop is append of the per-record `filterMap`: one
output item per record the loop does not skip, in record order. -/
lemma processRecords_eq (session : Session) (origin : Coordinate) :
    ∀ (records : List ServiceRecord) (acc : List UnitItem),
      processRecords session origin records acc =
        acc ++ records.filterMap (recordToItem session origin) := by
  intro records
  induction records with
  | nil => intro acc; simp [processRecords]
  | cons r rest ih =>
    intro acc
    cases hr : recordToItem session origin r with
    | some it => simp [processRecords, hr, ih, List.filterMap_cons]
    | none => simp [processRecords, hr, ih, List.filterMap_cons]

lemma mem_processRecords {session : Session} {origin : Coordinate}
    {records : List ServiceRecord} {acc : List UnitItem} {item : UnitItem} :
    item ∈ processRecords session origin records acc ↔
      item ∈ acc ∨
        ∃ r ∈ records, recordToItem session origin r = some item := by
  rw [processRecords_eq]
  simp [List.mem_filterMap]

lemma processRecords_all_none {session : Session} {origin : Coordinate}
    {records : List ServiceRecord} {acc : List UnitItem}
    (h : ∀ r ∈ records, recordToItem session origin r = none) :
    processRecords session origin records acc = acc := by
  induction records with
  | nil => rfl
  | cons r rest ih =>
    have hr := h r (List.mem_cons_self r rest)
    simp only [processRecords, hr]
    exact ih fun x hx => h x (List.mem_cons_of_mem r hx)

lemma recordToItem_some {session : Session} {origin : Coordinate}
    {r : ServiceRecord} {item : UnitItem}
    (h : recordToItem session origin r = some item) :
    ∃ u, session.generalInfos.find? (fun x => x.cnes == r.cnes) = some u ∧
      item.cnes = u.cnes ∧
      ∃ lat lng, u.latitude = some lat ∧ u.longitude = some lng ∧
        lat ≠ 0 ∧ lng ≠ 0 := by
  unfold recordToItem at h
  cases hf : session.generalInfos.find? (fun x => x.cnes == r.cnes) with
  | none => simp [hf] at h
  | some u =>
    simp only [hf] at h
    refine ⟨u, rfl, ?_⟩
    cases hlat : u.latitude with
    | none => simp [hlat] at h
    | some lat =>
      cases hlng : u.longitude with
      | none => simp [hlat, hlng] at h
      | some lng =>
        simp only [hlat, hlng] at h
        by_cases hz : (lat == 0 || lng == 0) = true
        · simp [hz] at h
        · rw [if_neg hz] at h
          have hzz := hz
          simp only [Bool.or_eq_true, beq_iff_eq, not_or] at hzz
          refine ⟨(congrArg UnitItem.cnes (Option.some.inj h)).symm,
            lat, lng, rfl, rfl, hzz.1, hzz.2⟩

/-- Every item of the resolver output comes from an establishment row with
present, nonzero coordinates (the Python falsiness check passed). -/
lemma nearUnits_mem_coords {session : Session} {params : UnitRequest}
    {origin : Coordinate} {item : UnitItem}
    (hitem : item ∈ get_near_unit_list session params origin) :
    ∃ u ∈ session.generalInfos, item.cnes = u.cnes ∧
      ∃ lat lng, u.latitude = some lat ∧ u.longitude = some lng ∧
        lat ≠ 0 ∧ lng ≠ 0 := by
  have h1 : item ∈ collectUnits session params origin :=
    (List.perm_insertionSort byDistance _).subset
      ((List.take_sublist _ _).subset hitem)
  rcases mem_processRecords.mp h1 with h | ⟨r, _, hr⟩
  · cases h
  · obtain ⟨u, hf, hcnes, rest⟩ := recordToItem_some hr
    exact ⟨u, List.mem_of_find?_eq_some hf, hcnes, rest⟩

/-- Establishments whose coordinate columns fail the Python truthiness test
(NULL or exactly 0.0) never appear in the resolver output, assuming the
data-model invariant that `cnes` is a unique key. -/
lemma nearUnits_excluded_of_bad_coords {session : Session}
    {params : UnitRequest} {origin : Coordinate} {u : GeneralInfo}
    (hnodup : session.generalInfos.Pairwise fun a b => a.cnes ≠ b.cnes)
    (hu : u ∈ session.generalInfos)
    (hbad : ∀ lat lng, u.latitude = some lat → u.longitude = some lng →
      lat = 0 ∨ lng = 0) :
    ∀ item ∈ get_near_unit_list session params origin, item.cnes ≠ u.cnes := by
  intro item hitem heq
  obtain ⟨v, hv, hcnes, lat, lng, hlat, hlng, hlat0, hlng0⟩ :=
    nearUnits_mem_coords hitem
  have hvu : v = u := by
    by_contra hne
    have hsymm : Symmetric fun a b : GeneralInfo => a.cnes ≠ b.cnes :=
      fun _ _ h e => h e.symm
    exact (hnodup.forall hsymm hv hu hne) (hcnes.symm.trans heq)
  rw [hvu] at hlat hlng
  rcases hbad lat lng hlat hlng with h | h
  · exact hlat0 h
  · exact hlng0 h

/-- C2: an establishment whose latitude or longitude is NULL never appears
in the resolver output, even when it has a matching `ServiceRecord`
(assuming the unique-`cnes` invariant); and when every matching record
leads to an establishment without coordinates — in particular when nothing
matches — the result is the empty list, not an error (the embedding is a
total function, so no exception is possible). -/
theorem nullCoord_excluded_and_empty (session : Session)
    (params : UnitRequest) (origin : Coordinate) :
    ((session.generalInfos.Pairwise fun a b => a.cnes ≠ b.cnes) →
      ∀ u ∈ session.generalInfos,
        u.latitude = none ∨ u.longitude = none →
        ∀ item ∈ get_near_unit_list session params origin,
          item.cnes ≠ u.cnes) ∧
    ((∀ r ∈ session.serviceRecords, r.service = params.srv →
        r.classification = params.clf →
        ∀ u ∈ session.generalInfos, u.cnes = r.cnes →
          u.latitude = none ∨ u.longitude = none) →
      get_near_unit_list session params origin = []) := by
  constructor
  · intro hnodup u hu hnull
    refine nearUnits_excluded_of_bad_coords hnodup hu ?_
    intro lat lng hlat hlng
    rcases hnull with h | h
    · rw [h] at hlat; cases hlat
    · rw [h] at hlng; cases hlng
  · intro hall
    have hcoll : collectUnits session params origin = [] := by
      refine processRecords_all_none ?_
      intro r hr
      obtain ⟨hrmem, hrcond⟩ := List.mem_filter.mp hr
      simp only [Bool.and_eq_true, beq_iff_eq] at hrcond
      unfold recordToItem
      cases hf : session.generalInfos.find? (fun u => u.cnes == r.cnes) with
      | none => rfl
      | some u =>
        have humem := List.mem_of_find?_eq_some hf
        have hucnes : u.cnes = r.cnes := by
          simpa using List.find?_some hf
        rcases hall r hrmem hrcond.1 hrcond.2 u humem hucnes with h | h
        · simp [h]
        · cases hlatu : u.latitude <;> simp [h, hlatu]
    rw [get_near_unit_list, hcoll]
    rfl

/-- Witness for C2: on a snapshot whose only matching establishment has a
NULL latitude the resolver returns the empty list, and on a snapshot where
a NULL-latitude establishment competes with a normal one, the surviving
item is not the NULL-latitude establishment. -/
theorem nullCoord_excluded_and_empty_witness :
    get_near_unit_list wSessionC2 wParams wOrigin = [] ∧
      wItemA.cnes ≠ wUnitNull.cnes :=
  ⟨(nullCoord_excluded_and_empty wSessionC2 wParams wOrigin).2 (by decide),
   (nullCoord_excluded_and_empty wSessionC2b wParams wOrigin).1 (by decide)
     wUnitNull (by decide) (Or.inl rfl) wItemA (List.mem_singleton.mpr rfl)⟩

/-- C3: the resolver never fails on missing data — the embedding is a
total function — and a service record whose establishment identifier has
no `GeneralInfo` row is skipped while every other record in the loop is
still processed: deleting the dangling record from the query result does
not change the output. -/
theorem dangling_record_skipped (session : Session) (origin : Coordinate)
    (d : ServiceRecord) (l₁ l₂ : List ServiceRecord) (acc : List UnitItem)
    (h : session.generalInfos.find? (fun u => u.cnes == d.cnes) = none) :
    processRecords session origin (l₁ ++ d :: l₂) acc =
      processRecords session origin (l₁ ++ l₂) acc := by
  have hd : recordToItem session origin d = none := by
    unfold recordToItem
    rw [h]
  induction l₁ generalizing acc with
  | nil => simp [processRecords, hd]
  | cons r rest ih =>
    cases hr : recordToItem session origin r <;>
      simp [processRecords, hr, ih]

/-- Witness for C3: on a concrete snapshot, the record pointing at the
non-existent establishment 99 is skipped and the rest still processed. -/
theorem dangling_record_skipped_witness :
    processRecords wSessionC3 wOrigin ([wRec 1] ++ wRec 99 :: []) [] =
      processRecords wSessionC3 wOrigin ([wRec 1] ++ []) [] :=
  dangling_record_skipped wSessionC3 wOrigin (wRec 99) [wRec 1] [] []
    (by decide)

/-- C10: the missing-coordinate test is a Python falsiness check, so an
establishment whose latitude or longitude is exactly `0.0` is excluded
from the resolver output just as if the coordinate were NULL (assuming the
unique-`cnes` invariant), even though 0.0 is an in-range coordinate. -/
theorem zeroCoord_excluded (session : Session) (params : UnitRequest)
    (origin : Coordinate)
    (hnodup : session.generalInfos.Pairwise fun a b => a.cnes ≠ b.cnes) :
    ∀ u ∈ session.generalInfos,
      u.latitude = some 0 ∨ u.longitude = some 0 →
      ∀ item ∈ get_near_unit_list session params origin,
        item.cnes ≠ u.cnes := by
  intro u hu hzero
  refine nearUnits_excluded_of_bad_coords hnodup hu ?_
  intro lat lng hlat hlng
  rcases hzero with h | h
  · rw [h] at hlat; exact Or.inl (Option.some.inj hlat).symm
  · rw [h] at hlng; exact Or.inr (Option.some.inj hlng).symm

/-- Witness for C10: establishment 4 has latitude exactly 0 and a matching
record, yet the item the resolver returns is not establishment 4. -/
theorem zeroCoord_excluded_witness : wItemA.cnes ≠ wUnitZero.cnes :=
  zeroCoord_excluded wSessionC10 wParams wOrigin (by decide) wUnitZero
    (by decide) (Or.inl rfl) wItemA (List.mem_singleton.mpr rfl)

/-- C4: the resolver selects exactly the service records whose service and
classification codes both equal the requested pair — the survivors list is
the `filterMap` of the per-record item builder over that exact filter —
and builds one entry per surviving record: its length is the number of
matching records that survive, so duplicate records for one establishment
each produce their own entry (no de-duplication). -/
theorem exact_match_no_dedup (session : Session) (params : UnitRequest)
    (origin : Coordinate) :
    collectUnits session params origin =
      (session.serviceRecords.filter
        (fun r => decide (r.service = params.srv ∧
          r.classification = params.clf))).filterMap
        (recordToItem session origin) ∧
    (collectUnits session params origin).length =
      ((session.serviceRecords.filter
        (fun r => decide (r.service = params.srv ∧
          r.classification = params.clf))).filter
        (fun r => (recordToItem session origin r).isSome)).length := by
  have hpred : session.serviceRecords.filter
      (fun r => r.service == params.srv &&
        r.classification == params.clf) =
      session.serviceRecords.filter
      (fun r => decide (r.service = params.srv ∧
        r.classification = params.clf)) := by
    apply List.filter_congr
    intro x _
    rw [Bool.eq_iff_iff]
    simp
  have hlen : ∀ l : List ServiceRecord,
      (l.filterMap (recordToItem session origin)).length =
        (l.filter (fun r => (recordToItem session origin r).isSome)).length := by
    intro l
    induction l with
    | nil => rfl
    | cons r rest ih =>
      cases hr : recordToItem session origin r <;>
        simp [List.filterMap_cons, List.filter_cons, hr, ih]
  constructor
  · rw [collectUnits, processRecords_eq, hpred, List.nil_append]
  · rw [collectUnits, processRecords_eq, hpred, List.nil_append, hlen]

/-! ## Detail aggregator -/

lemma lookupKey_nil (k : String) : lookupKey [] k = none := rfl

lemma lookupKey_cons (k0 : String) (vs : List String)
    (rest : List (String × List String)) (k : String) :
    lookupKey ((k0, vs) :: rest) k =
      if k0 = k then some vs else lookupKey rest k := by
  by_cases h : k0 = k <;> simp [lookupKey, List.find?_cons, h]

lemma lookupKey_dictAppend (d : List (String × List String))
    (k v k' : String) :
    lookupKey (dictAppend d k v) k' =
      if k' = k then some ((lookupKey d k').getD [] ++ [v])
      else lookupKey d k' := by
  induction d with
  | nil =>
    by_cases h : k' = k
    · subst h; simp [dictAppend, lookupKey_cons, lookupKey_nil]
    · have h2 : ¬ k = k' := fun e => h e.symm
      simp [dictAppend, lookupKey_cons, h, h2, lookupKey_nil]
  | cons e rest ih =>
    obtain ⟨k0, vs⟩ := e
    by_cases h0 : k0 = k
    · subst h0
      by_cases h' : k' = k0
      · subst h'
        simp [dictAppend, lookupKey_cons]
      · have h2 : ¬ k0 = k' := fun e => h' e.symm
        simp [dictAppend, lookupKey_cons, h', h2]
    · by_cases h' : k' = k
      · subst h'
        have h2 : ¬ k0 = k' := h0
        simp [dictAppend, lookupKey_cons, h0, h2, ih]
      · by_cases h3 : k0 = k'
        · subst h3
          simp [dictAppend, lookupKey_cons, h0, h']
        · simp [dictAppend, lookupKey_cons, h0, h', h3, ih]

/-- What the aggregation loop does to one key: starting from dict `d`, the
final list under `name` is whatever `d` already held there, followed by
the classification names of the resolved records whose service name is
`name`, in record order. -/
lemma buildServicesDict_lookup (session : Session) (name : String) :
    ∀ (records : List ServiceRecord) (d : List (String × List String)),
      lookupKey (buildServicesDict session records d) name =
        (match lookupKey d name with
         | none =>
           if (((records.filterMap (resolveRecord session)).filter
              (fun m => m.service == name)).map
                (fun m => m.classification)) = [] then none
           else some (((records.filterMap (resolveRecord session)).filter
              (fun m => m.service == name)).map
                (fun m => m.classification))
         | some v =>
           some (v ++ ((records.filterMap (resolveRecord session)).filter
              (fun m => m.service == name)).map
                (fun m => m.classification))) := by
  intro records
  induction records with
  | nil =>
    intro d
    cases hlk : lookupKey d name <;>
      simp [buildServicesDict, List.filterMap_nil, hlk]
  | cons us rest ih =>
    intro d
    cases hres : resolveRecord session us with
    | none =>
      simp only [buildServicesDict, hres, List.filterMap_cons]
      exact ih d
    | some m =>
      simp only [buildServicesDict, hres, List.filterMap_cons]
      rw [ih (dictAppend d m.service m.classification), lookupKey_dictAppend]
      by_cases hname : m.service = name
      · rw [if_pos hname.symm]
        cases hlk : lookupKey d name <;>
          simp [List.filter_cons, hname, hlk]
      · have h2 : ¬ name = m.service := fun e => hname e.symm
        rw [if_neg h2]
        have hfc : List.filter (fun x => x.service == name)
            (m :: List.filterMap (resolveRecord session) rest) =
            List.filter (fun x => x.service == name)
              (List.filterMap (resolveRecord session) rest) := by
          rw [List.filter_cons]
          simp [hname]
        rw [hfc]

/-- C6: `get_all_services` groups the resolved classification names under
their service display-name, each group preserving record order (the list
under every service name is exactly `classificationsFor`, the record-order
list of classification names resolved to that service name — so records
sharing a service name, even with different classification codes, land in
one list); an establishment with no service records yields the empty
mapping, not an error. -/
theorem services_grouped_in_record_order (session : Session) (cnes : Int) :
    ((∀ r ∈ session.serviceRecords, r.cnes ≠ cnes) →
      get_all_services session cnes = []) ∧
    ∀ name, lookupKey (get_all_services session cnes) name =
      (if classificationsFor session cnes name = [] then none
       else some (classificationsFor session cnes name)) := by
  constructor
  · intro h
    have hfilter :
        session.serviceRecords.filter (fun r => r.cnes == cnes) = [] := by
      rw [List.filter_eq_nil_iff]
      intro r hr
      simp [h r hr]
    rw [get_all_services, hfilter]
    rfl
  · intro name
    rw [get_all_services, buildServicesDict_lookup session name]
    rfl

/-- Witness for C6: establishment 5 has no service records in the
snapshot, so its aggregated mapping is empty. -/
theorem services_grouped_in_record_order_witness :
    get_all_services wSessionC6 5 = [] :=
  (services_grouped_in_record_order wSessionC6 5).1 (by decide)

/-- C7: in the aggregation loop, a record whose (service, classification)
pair has no catalog entry is skipped — only a warning is logged — and the
remaining records are still processed: deleting the dangling record from
the query result does not change the result, so one malformed row never
fails the listing (the embedding is a total function, so no exception is
possible). -/
theorem dangling_catalog_skipped (session : Session) (d : ServiceRecord)
    (l₁ l₂ : List ServiceRecord) (acc : List (String × List String))
    (h : resolveRecord session d = none) :
    buildServicesDict session (l₁ ++ d :: l₂) acc =
      buildServicesDict session (l₁ ++ l₂) acc := by
  induction l₁ generalizing acc with
  | nil => simp [buildServicesDict, h]
  | cons r rest ih =>
    cases hr : resolveRecord session r <;>
      simp [buildServicesDict, hr, ih]

/-- Witness for C7: the record with the uncatalogued pair (9, 9) is
skipped while the record with pair (1, 1) is still processed. -/
theorem dangling_catalog_skipped_witness :
    buildServicesDict wSessionC6 ([wRec 1] ++ wRecDanglingCat :: []) [] =
      buildServicesDict wSessionC6 ([wRec 1] ++ []) [] :=
  dangling_catalog_skipped wSessionC6 wRecDanglingCat [wRec 1] [] []
    (by decide)

/-! ## Postal-code geocoding and establishment lookup failures -/

lemma get_coord_from_cep_404 {response : CepResponse}
    (h : response.status_code = 404) :
    get_coord_from_cep response =
      .error (.httpException 404 "CEP não encontrado ou inválido") := by
  simp [get_coord_from_cep, h]

/-- C8: `get_coord_from_cep` fails with the 404 `HTTPException` exactly
when the upstream resolver reports the postal code unresolvable (HTTP
404); every other non-2xx status yields the generic failure, as does a
malformed 200 body; and when the postal code is unresolvable, the
`/unidades` request surfaces the 404 error with no partial list. -/
theorem cep_notfound_iff_and_propagates (response : CepResponse)
    (session : Session) (params : UnitRequest) :
    ((∃ detail, get_coord_from_cep response =
        .error (.httpException 404 detail)) ↔
      response.status_code = 404) ∧
    (response.status_code < 200 ∨ 300 ≤ response.status_code →
      response.status_code ≠ 404 →
      ∃ msg, get_coord_from_cep response = .error (.genericError msg)) ∧
    (response.status_code = 200 →
      response.lat = none ∨ response.lng = none →
      ∃ msg, get_coord_from_cep response = .error (.genericError msg)) ∧
    (response.status_code = 404 →
      unidades response session params =
        .error (.httpException 404 "CEP não encontrado ou inválido")) := by
  refine ⟨⟨?_, ?_⟩, ?_, ?_, ?_⟩
  · rintro ⟨detail, hd⟩
    by_cases h200 : response.status_code = 200
    · exfalso
      cases hlat : response.lat <;> cases hlng : response.lng <;>
        simp [get_coord_from_cep, h200, hlat, hlng] at hd
    · by_cases h404 : response.status_code = 404
      · exact h404
      · exfalso
        simp [get_coord_from_cep, h200, h404] at hd
  · intro h
    exact ⟨"CEP não encontrado ou inválido", get_coord_from_cep_404 h⟩
  · intro hrange hne
    have h200 : response.status_code ≠ 200 := by omega
    exact ⟨"Erro ao consultar CEP", by simp [get_coord_from_cep, h200, hne]⟩
  · intro h200 hnull
    refine ⟨"Erro ao validar resposta da API", ?_⟩
    rcases hnull with h | h
    · simp [get_coord_from_cep, h200, h]
    · cases hlat : response.lat <;> simp [get_coord_from_cep, h200, h, hlat]
  · intro h404
    simp [unidades, get_coord_from_cep_404 h404]

/-- Witness for C8: a concrete 404 reply makes the nearest-unit request
fail with the 404 error and no list. -/
theorem cep_notfound_iff_and_propagates_witness :
    unidades wResp404 wSessionC1 wParams =
      .error (.httpException 404 "CEP não encontrado ou inválido") :=
  (cep_notfound_iff_and_propagates wResp404 wSessionC1 wParams).2.2.2 rfl

/-- C9: `get_unit` returns an establishment row exactly when one with the
requested identifier exists, and raises `HTTPException(404)` when none
does; the details endpoint propagates the result unsuppressed (no retry,
no suppression — the error value is returned unchanged). -/
theorem unit_found_or_notfound (session : Session) (cnes : Int) :
    ((∃ u ∈ session.generalInfos, u.cnes = cnes) →
      ∃ u, get_unit session cnes = .ok u ∧ u ∈ session.generalInfos ∧
        u.cnes = cnes ∧
        detalhes session cnes = .ok (u, get_all_services session cnes)) ∧
    ((∀ u ∈ session.generalInfos, u.cnes ≠ cnes) →
      get_unit session cnes =
        .error (.httpException 404 "Unidade não encontrada") ∧
      detalhes session cnes =
        .error (.httpException 404 "Unidade não encontrada")) := by
  constructor
  · rintro ⟨u, hu, hcnes⟩
    have hsome : (session.generalInfos.find? (fun x => x.cnes == cnes)).isSome :=
      List.find?_isSome.mpr ⟨u, hu, by simp [hcnes]⟩
    obtain ⟨v, hv⟩ := Option.isSome_iff_exists.mp hsome
    refine ⟨v, ?_, List.mem_of_find?_eq_some hv, ?_, ?_⟩
    · simp [get_unit, hv]
    · simpa using List.find?_some hv
    · simp [detalhes, get_unit, hv]
  · intro h
    have hf : session.generalInfos.find? (fun x => x.cnes == cnes) = none :=
      List.find?_eq_none.mpr fun x hx => by simp [h x hx]
    exact ⟨by simp [get_unit, hf], by simp [detalhes, get_unit, hf]⟩

/-- Witness for C9: no establishment 7 exists in the snapshot, so both
`get_unit` and the details request report the 404 `NotFound`. -/
theorem unit_found_or_notfound_witness :
    get_unit wSessionC1 7 =
        .error (.httpException 404 "Unidade não encontrada") ∧
      detalhes wSessionC1 7 =
        .error (.httpException 404 "Unidade não encontrada") :=
  (unit_found_or_notfound wSessionC1 7).2 (by decide)

end Susp
